import Mathlib

/-!
Shallow embedding of the recipe-extraction pipeline of `app.py`
(Bibli_recipe). External effects (the yt-dlp download tool, the Whisper
HTTP endpoint, the chat-completion provider, the filesystem) are modelled
as explicit inputs: each helper takes the provider's outcome as a value
and the functions below reproduce, step for step, what the Python code
does with it, including the dynamic-typing failure modes that Python
surfaces as exceptions (modelled as `Except String`).
-/

namespace BibliRecipe

/-- JSON values as produced by `json.loads` (numbers restricted to
integers; no claim touches numeric content). An `obj` carries its field
list; lookup takes the last binding, matching dict construction. -/
inductive JVal where
  | str (s : String)
  | num (n : Int)
  | bool (b : Bool)
  | null
  | arr (xs : List JVal)
  | obj (fields : List (String × JVal))

/-- Last-binding-wins association lookup, matching the dict that
`json.loads` builds when keys repeat. -/
def jLookup (fields : List (String × JVal)) (key : String) : Option JVal :=
  fields.foldl (fun acc p => if p.1 = key then some p.2 else acc) none

mutual

/-- Rendering of a JSON value as Python repr() renders it (string
escaping inside repr is not reproduced; no claim depends on it). -/
def pyRepr : JVal → String
  | JVal.str s => "\x27" ++ s ++ "\x27"
  | JVal.num n => toString n
  | JVal.bool true => "True"
  | JVal.bool false => "False"
  | JVal.null => "None"
  | JVal.arr xs => "[" ++ pyReprList xs ++ "]"
  | JVal.obj fs => "\x7b" ++ pyReprObj fs ++ "\x7d"

/-- Comma-separated repr of list elements. -/
def pyReprList : List JVal → String
  | [] => ""
  | [x] => pyRepr x
  | x :: y :: t => pyRepr x ++ ", " ++ pyReprList (y :: t)

/-- Comma-separated repr of dict items. -/
def pyReprObj : List (String × JVal) → String
  | [] => ""
  | [p] => "\x27" ++ p.1 ++ "\x27: " ++ pyRepr p.2
  | p :: y :: t => "\x27" ++ p.1 ++ "\x27: " ++ pyRepr p.2 ++ ", " ++ pyReprObj (y :: t)

end

/-- Rendering of a JSON value as Python str() renders it, as used by
f-string substitution. -/
def pyStr : JVal → String
  | JVal.str s => s
  | v => pyRepr v

/-- Python truthiness of a JSON value. -/
def truthy : JVal → Bool
  | JVal.str s => !s.isEmpty
  | JVal.num n => n != 0
  | JVal.bool b => b
  | JVal.null => false
  | JVal.arr xs => !xs.isEmpty
  | JVal.obj fs => !fs.isEmpty

/-- Python `value.get(key, default)`: succeeds on a dict (returning the
default when the key is absent), raises AttributeError on anything
else. -/
def dictGetD (v : JVal) (key : String) (dflt : JVal) : Except String JVal :=
  match v with
  | JVal.obj fs => Except.ok ((jLookup fs key).getD dflt)
  | _ => Except.error ("AttributeError: object has no attribute get (" ++ key ++ ")")

/-- Python `value.get(key)` with its implicit `None` default. -/
def dictGet (v : JVal) (key : String) : Except String JVal :=
  dictGetD v key JVal.null

/-- Python `value[key]`: KeyError when the key is absent, TypeError when
the value is not a dict. -/
def subscript (v : JVal) (key : String) : Except String JVal :=
  match v with
  | JVal.obj fs =>
      match jLookup fs key with
      | some x => Except.ok x
      | none => Except.error ("KeyError: " ++ key)
  | _ => Except.error ("TypeError: value is not subscriptable (" ++ key ++ ")")

/-- Removal of already-seen keys, keeping first occurrences in order,
as dict construction does. -/
def dedupFirstAux (seen : List String) : List String → List String
  | [] => []
  | k :: ks => if k ∈ seen then dedupFirstAux seen ks else k :: dedupFirstAux (k :: seen) ks

/-- Key list of a dict built from a field list: first-occurrence order. -/
def dedupFirst (ks : List String) : List String :=
  dedupFirstAux [] ks

/-- Python iteration over a JSON value: lists yield their elements,
strings yield their one-character substrings, dicts yield their keys
(first-occurrence order, as dict construction dedupes), anything else
raises TypeError. -/
def pyIter : JVal → Except String (List JVal)
  | JVal.arr xs => Except.ok xs
  | JVal.str s => Except.ok (s.data.map (fun c => JVal.str (String.singleton c)))
  | JVal.obj fs => Except.ok ((dedupFirst (fs.map Prod.fst)).map JVal.str)
  | JVal.num _ => Except.error "TypeError: int is not iterable"
  | JVal.bool _ => Except.error "TypeError: bool is not iterable"
  | JVal.null => Except.error "TypeError: NoneType is not iterable"

/-- Replacement of every occurrence of the single character c by the
character list r, the effect of Python str.replace for a one-character
pattern. -/
def replaceChar (c : Char) (r : List Char) : List Char → List Char
  | [] => []
  | x :: xs => (if x = c then r else [x]) ++ replaceChar c r xs

/-- Line 211 of app.py: raw_transcript.replace on the open brace, then
on the close brace. -/
def escapeBraces (s : String) : String :=
  String.mk (replaceChar '\x7d' ['\x7d', '\x7d'] (replaceChar '\x7b' ['\x7b', '\x7b'] s.data))

/-- The character-level specification the escaping is compared with: an
open brace expands to two open braces, a close brace to two close
braces, every other character is kept. -/
def expandBrace (c : Char) : List Char :=
  if c = '\x7b' then ['\x7b', '\x7b']
  else if c = '\x7d' then ['\x7d', '\x7d']
  else [c]

/-- The fixed part of the prompt before the escaped transcript
(lines 214-248 of app.py, braces and apostrophes written as escapes). -/
def promptHeader : String :=
  "\n        Analyse le texte ci-dessous et extrais les informations suivantes pour une recette de cuisine :\n\n"
  ++ "        - \x22ingredients\x22: Une liste des ingrédients, chacun sous forme d\x27objet contenant :\n"
  ++ "            - \x22nom\x22 : le nom ou descriptif de l\x27ingrédient.\n"
  ++ "            - \x22quantité\x22 : la quantité associée, si mentionnée, sinon \x22inconnu\x22.\n"
  ++ "        - \x22steps\x22: Une liste des étapes successives de la préparation, chacune comme un élément distinct.\n"
  ++ "        - \x22utensils\x22: Une liste des ustensiles ou matériels de cuisine mentionnés dans le texte.\n"
  ++ "        - \x22cook_time\x22: La durée totale de cuisson ou de repos (en minutes, sinon \x22inconnu\x22).\n"
  ++ "        - \x22prep_time\x22: La durée de préparation (en minutes, sinon \x22inconnu\x22).\n\n"
  ++ "        Réponds uniquement en JSON strict, sans texte explicatif supplémentaire. Voici un exemple :\n\n"
  ++ "        \x7b\n        \x22ingredients\x22: [\n"
  ++ "            \x7b\x22nom\x22: \x22pommes de terre\x22, \x22quantité\x22: \x221 kg\x22\x7d,\n"
  ++ "            \x7b\x22nom\x22: \x22gros sel\x22, \x22quantité\x22: \x2210 g\x22\x7d,\n"
  ++ "            \x7b\x22nom\x22: \x22lait entier\x22, \x22quantité\x22: \x2250 cl\x22\x7d,\n"
  ++ "            \x7b\x22nom\x22: \x22beurre\x22, \x22quantité\x22: \x2230 g\x22\x7d\n        ],\n"
  ++ "        \x22steps\x22: [\n            \x22Éplucher les pommes de terre.\x22,\n"
  ++ "            \x22Faire cuire les pommes de terre dans de l\x27eau salée.\x22,\n"
  ++ "            \x22Passer les pommes de terre au moulin à légumes.\x22,\n"
  ++ "            \x22Ajouter du beurre et du lait chaud pour obtenir une purée onctueuse.\x22\n        ],\n"
  ++ "        \x22utensils\x22: [\x22couteau\x22, \x22moulin à légumes\x22, \x22casserole\x22],\n"
  ++ "        \x22cook_time\x22: \x2225 minutes\x22,\n        \x22prep_time\x22: \x2215 minutes\x22\n        \x7d\n\n\n"
  ++ "        Voici le texte combiné contenant la transcription et la description de la vidéo :\n\n        \x22\x22\x22"

/-- The fixed part of the prompt after the escaped transcript. -/
def promptFooter : String := "\x22\x22\x22\n        "

/-- Prompt construction of extract_recipe_info: the fixed template around
the brace-escaped transcript. -/
def buildPrompt (raw_transcript : String) : String :=
  promptHeader ++ escapeBraces raw_transcript ++ promptFooter

/-- Outcome of the chat-completion call, as seen by
extract_recipe_info: the provider raised, the returned message content
failed json.loads, or it parsed to a JSON value. -/
inductive ModelResponse where
  | providerError (msg : String)
  | notJson (raw : String)
  | json (v : JVal)

/-- The record extract_recipe_info returns: three joined display strings
and the two timing fields, which the code passes through as whatever
JSON value the model produced. -/
structure RecipeInfo where
  ingredients : String
  steps : String
  utensils : String
  cook_time : JVal
  prep_time : JVal

/-- The fallback record of the except-branch (lines 297-303 of app.py). -/
def fallbackRecord (raw_transcript : String) : RecipeInfo :=
  { ingredients := "Ingrédients non détectés"
    steps := raw_transcript
    utensils := ""
    cook_time := JVal.str "inconnu"
    prep_time := JVal.str "inconnu" }

/-- Exception-propagating sequencing: evaluate the first computation,
feed a success to the continuation, let a raised error propagate. -/
def exBind (x : Except String α) (f : α → Except String β) : Except String β :=
  match x with
  | Except.ok a => f a
  | Except.error e => Except.error e

/-- Left-to-right traversal of a list by an exception-raising function,
stopping at the first raised error, as a Python comprehension does. -/
def mapExcept (f : α → Except String β) : List α → Except String (List β)
  | [] => Except.ok []
  | a :: as =>
    match f a with
    | Except.error e => Except.error e
    | Except.ok b =>
      match mapExcept f as with
      | Except.error e => Except.error e
      | Except.ok bs => Except.ok (b :: bs)

/-- One iteration of the ingredient comprehension (line 278 of app.py):
format as name (quantity) when ingredient.get on the quantity key is
truthy, otherwise subscript the name alone. -/
def normalizeIngredient (ingredient : JVal) : Except String String :=
  exBind (dictGet ingredient "quantité") (fun q =>
    if truthy q then
      exBind (subscript ingredient "nom") (fun n =>
        exBind (subscript ingredient "quantité") (fun q2 =>
          Except.ok (pyStr n ++ " (" ++ pyStr q2 ++ ")")))
    else
      exBind (subscript ingredient "nom") (fun n => Except.ok (pyStr n)))

/-- Line 284 of app.py: join the steps with newlines, each rendered
behind a bullet marker by the f-string. -/
def joinSteps (steps : List JVal) : String :=
  String.intercalate "\n" (steps.map (fun step => "- " ++ pyStr step))

/-- One item of the utensil join: str.join requires every element to be
a string, else TypeError. -/
def strItem (v : JVal) : Except String String :=
  match v with
  | JVal.str s => Except.ok s
  | _ => Except.error "TypeError: sequence item is not a str"

/-- Line 285 of app.py: join the utensils with comma-space. -/
def joinUtensils (utensils : List JVal) : Except String String :=
  exBind (mapExcept strItem utensils) (fun strs =>
    Except.ok (String.intercalate ", " strs))

/-- The try-block of extract_recipe_info (lines 209-293 of app.py): any
Except.error models a Python exception reaching the except-branch. -/
def tryBody (raw_transcript : String) (resp : ModelResponse) : Except String RecipeInfo :=
  let _prompt := buildPrompt raw_transcript
  exBind (match resp with
    | ModelResponse.providerError e => Except.error e
    | ModelResponse.notJson raw => Except.error ("json.decoder.JSONDecodeError: " ++ raw)
    | ModelResponse.json v => Except.ok v) (fun data =>
  exBind (dictGetD data "ingredients" (JVal.arr [])) (fun ingredients_raw =>
  exBind (dictGetD data "steps" (JVal.arr [])) (fun steps0 =>
  exBind (dictGetD data "utensils" (JVal.arr [])) (fun utensils0 =>
  exBind (dictGetD data "cook_time" (JVal.str "inconnu")) (fun cook_time =>
  exBind (dictGetD data "prep_time" (JVal.str "inconnu")) (fun prep_time =>
  exBind (pyIter ingredients_raw) (fun ingItems =>
  exBind (mapExcept normalizeIngredient ingItems) (fun ingredients =>
  exBind (pyIter steps0) (fun stepItems =>
  exBind (pyIter utensils0) (fun utensilItems =>
  exBind (joinUtensils utensilItems) (fun utensils =>
  Except.ok { ingredients := String.intercalate "\n" ingredients
              steps := joinSteps stepItems
              utensils := utensils
              cook_time := cook_time
              prep_time := prep_time })))))))))))

/-- extract_recipe_info (lines 204-303 of app.py): run the try-block and
catch every failure into the fixed fallback record. -/
def extract_recipe_info (raw_transcript : String) (resp : ModelResponse) : RecipeInfo :=
  match tryBody raw_transcript resp with
  | Except.ok r => r
  | Except.error _ => fallbackRecord raw_transcript

/-- Response to the manual HTTP POST of
transcribe_with_openai_whisper: its status code, its text body, and the
outcome of response.json() (none models a JSONDecodeError). -/
structure HttpResponse where
  status : Nat
  body : String
  jsonVal : Option JVal

/-- transcribe_with_openai_whisper (lines 175-203 of app.py), from the
point where the provider response is in hand: non-200 raises with the
status and body, then response.json() is parsed and result.get returns
the text field or the empty string. -/
def transcribe_with_openai_whisper (resp : HttpResponse) : Except String JVal :=
  if resp.status ≠ 200 then
    Except.error ("OpenAI Whisper API error " ++ toString resp.status ++ ": " ++ resp.body)
  else
    match resp.jsonVal with
    | none => Except.error ("json.decoder.JSONDecodeError: " ++ resp.body)
    | some v => dictGetD v "text" (JVal.str "")

/-- The request transcribe_with_openai_whisper sends: endpoint,
bearer-authorization header built from the credential, model field and
uploaded file name. -/
structure WhisperRequest where
  url : String
  authHeader : String
  model : String
  fileName : String

/-- Last path component, modelling os.path.basename on slash-separated
paths. -/
def basename (p : String) : String :=
  (p.splitOn "/").getLastD ""

/-- Lines 181-195 of app.py: the outgoing transcription request. -/
def buildWhisperRequest (apiKey : String) (audio_path : String) : WhisperRequest :=
  { url := "https://api.openai.com/v1/audio/transcriptions"
    authHeader := "Bearer " ++ apiKey
    model := "whisper-1"
    fileName := basename audio_path }

/-- The whole transcriber call: build the request from the credential
and audio path, obtain the provider response to that request, handle
it. -/
def transcribeCall (apiKey : String) (audio_path : String)
    (provider : WhisperRequest → HttpResponse) : Except String JVal :=
  transcribe_with_openai_whisper (provider (buildWhisperRequest apiKey audio_path))

/-- Metadata yt-dlp extract_info reports: optional title and optional
description (absence models a missing dict key). -/
structure YdlInfo where
  title : Option String
  description : Option String

/-- download_audio_with_ytdlp (lines 143-173 of app.py) from the point
where extract_info has succeeded with the given metadata: default the
title and description, predict the mp3 path from the sanitized title.
The external sanitize_filename routine is a parameter. -/
def download_audio_with_ytdlp (sanitize : String → String) (info : YdlInfo)
    (output_dir : String) : String × String × String :=
  let video_title := info.title.getD "Titre inconnu"
  let description := info.description.getD ""
  let audio_file := output_dir ++ "/" ++ sanitize video_title ++ ".mp3"
  (audio_file, video_title, description)

/-- Index of the first position where pat occurs as a contiguous run, if
any. -/
def listFind (pat : List Char) : List Char → Option Nat
  | [] => if pat.isEmpty then some 0 else none
  | c :: rest =>
    if pat.isPrefixOf (c :: rest) then some 0
    else (listFind pat rest).map (fun i => i + 1)

/-- Leftmost occurrence of a marker token in the lowered character
sequence. -/
def findMarker (marker : String) (lowered : List Char) : Option Nat :=
  listFind marker.data lowered

/-- Record returned by the heuristic extraction pass. -/
structure HeuristicRecipe where
  ingredients : String
  steps : String
  utensils : List String
  cook_time : String

/-- Modelled from the spec: the keyword-heuristic extraction pass of
TextExtractor (spec section 4.3) has no implementation under src/;
following the spec, matching lower-cases the text, the ingredients
marker and then a steps marker (steps first, preparation as synonym) are
located by leftmost occurrence, a missing marker yields the sentinel
record carrying the whole original text as steps, and otherwise the two
windows between the markers are returned trimmed. -/
def heuristic_extract (text : String) : HeuristicRecipe :=
  let lowered := text.data.map Char.toLower
  let ingIdx := findMarker "ingredients" lowered
  let stepIdx := match findMarker "steps" lowered with
    | some i => some i
    | none => findMarker "preparation" lowered
  match ingIdx, stepIdx with
  | some i, some s =>
      { ingredients := (String.mk ((text.data.drop i).take (s - i))).trim
        steps := (String.mk (text.data.drop s)).trim
        utensils := []
        cook_time := "unknown" }
  | _, _ =>
      { ingredients := "no ingredients detected"
        steps := text
        utensils := []
        cook_time := "unknown" }

/-- A path lies under a directory when the directory is a character
prefix of it. -/
def isUnder (dir : String) (path : String) : Bool :=
  dir.data.isPrefixOf path.data

/-- The data handed to the correction.html rendering (lines 74-83 of
app.py). -/
structure CorrectionPage where
  video_url : String
  video_title : String
  raw_transcript : String
  suggested_ingredients : String
  suggested_steps : String
  suggested_utensils : String
  suggested_cook_time : JVal

/-- The three outcomes of the add_recipe POST handler: the 400 page for
a missing URL, the 500 error page, or the rendered correction page. -/
inductive PageResult where
  | badRequest (msg : String)
  | errorPage (msg : String)
  | correction (page : CorrectionPage)

/-- The external outcomes one add_recipe invocation observes: the
sanitizer, the yt-dlp result (error models a raised provider failure),
the Whisper HTTP response, and the chat-completion outcome. -/
structure PipelineEnv where
  sanitize : String → String
  fetchOutcome : Except String YdlInfo
  whisperResponse : HttpResponse
  chatOutcome : ModelResponse

/-- The body of the with-tempdir block (lines 64-83 of app.py), threading
an explicit filesystem as the list of existing paths: a successful fetch
writes the predicted audio file into the scratch directory, then
transcription and extraction run; any raised step surfaces as
Except.error with the paths written so far. -/
def pipelineBody (env : PipelineEnv) (video_url : String) (tmpdir : String)
    (fs : List String) : Except String CorrectionPage × List String :=
  match env.fetchOutcome with
  | Except.error e => (Except.error e, fs)
  | Except.ok info =>
    let fetched := download_audio_with_ytdlp env.sanitize info tmpdir
    let fs1 := fetched.1 :: fs
    match transcribe_with_openai_whisper env.whisperResponse with
    | Except.error e => (Except.error e, fs1)
    | Except.ok t =>
      let combined := pyStr t ++ "\n\n" ++ fetched.2.2
      let info2 := extract_recipe_info combined env.chatOutcome
      (Except.ok { video_url := video_url
                   video_title := fetched.2.1
                   raw_transcript := combined
                   suggested_ingredients := info2.ingredients
                   suggested_steps := info2.steps
                   suggested_utensils := info2.utensils
                   suggested_cook_time := info2.cook_time }, fs1)

/-- The add_recipe POST handler (lines 56-86 of app.py): reject an empty
URL, otherwise create the scratch directory, run the body, and on every
exit of the with-block delete the directory and everything under it;
body failures render the 500 error page. -/
def add_recipe_post (env : PipelineEnv) (video_url : String) (tmpdir : String)
    (fs : List String) : PageResult × List String :=
  if video_url.isEmpty then
    (PageResult.badRequest "Veuillez fournir une URL de vidéo.", fs)
  else
    let fs1 := tmpdir :: fs
    let step := pipelineBody env video_url tmpdir fs1
    let fs3 := step.2.filter (fun p => !(isUnder tmpdir p))
    match step.1 with
    | Except.ok page => (PageResult.correction page, fs3)
    | Except.error e => (PageResult.errorPage ("Erreur lors du traitement : " ++ e), fs3)

/-- Recursive reference form of the step joining, making explicit that
every step is prefixed with the bullet marker and consecutive steps are
separated by one newline, in order. -/
def joinStepsRec : List JVal → String
  | [] => ""
  | [x] => "- " ++ pyStr x
  | x :: y :: t => "- " ++ pyStr x ++ "\n" ++ joinStepsRec (y :: t)

/-- Character-level reference form of the brace escaping: each brace is
doubled in place, everything else is kept. -/
def expandAll : List Char → List Char
  | [] => []
  | c :: cs => expandBrace c ++ expandAll cs

/-- Whether a parsed response body is a JSON object (a Python dict). -/
def jsonIsDict : Option JVal → Bool
  | some (JVal.obj _) => true
  | _ => false

/-- The field list with every binding of one top-level key removed: the
response that is identical except that this field is missing. -/
def removeField (key : String) (fs : List (String × JVal)) : List (String × JVal) :=
  fs.filter (fun p => p.1 != key)

/-- The tail of an intercalation: separator before each element. -/
def tailJoin (sep : String) : List String → String
  | [] => ""
  | a :: as => sep ++ a ++ tailJoin sep as

theorem intercalate_go_spec (sep : String) :
    ∀ (as : List String) (acc : String),
      String.intercalate.go acc sep as = acc ++ tailJoin sep as
  | [], acc => by simp [String.intercalate.go, tailJoin]
  | a :: as, acc => by
    have ih := intercalate_go_spec sep as (acc ++ sep ++ a)
    simp only [String.intercalate.go, tailJoin] at ih ⊢
    rw [ih]
    simp [String.append_assoc]

theorem intercalate_cons_cons (sep a b : String) (t : List String) :
    String.intercalate sep (a :: b :: t) = a ++ sep ++ String.intercalate sep (b :: t) := by
  show String.intercalate.go a sep (b :: t) = a ++ sep ++ String.intercalate.go b sep t
  rw [intercalate_go_spec, intercalate_go_spec]
  simp [tailJoin, String.append_assoc]

theorem joinSteps_eq_rec : ∀ steps : List JVal, joinSteps steps = joinStepsRec steps
  | [] => rfl
  | [_] => rfl
  | x :: y :: t => by
    have ih := joinSteps_eq_rec (y :: t)
    simp only [joinSteps, List.map] at ih ⊢
    rw [intercalate_cons_cons, ih]
    simp [joinStepsRec, String.append_assoc]

theorem replaceChar_append (c : Char) (r : List Char) (a b : List Char) :
    replaceChar c r (a ++ b) = replaceChar c r a ++ replaceChar c r b := by
  induction a with
  | nil => rfl
  | cons x xs ih => simp [replaceChar, ih, List.append_assoc]

theorem escape_core (l : List Char) :
    replaceChar '\x7d' ['\x7d', '\x7d'] (replaceChar '\x7b' ['\x7b', '\x7b'] l) = expandAll l := by
  induction l with
  | nil => rfl
  | cons c cs ih =>
    simp only [replaceChar, expandAll, replaceChar_append]
    rw [ih]
    by_cases h1 : c = '\x7b'
    · simp [h1, replaceChar, expandBrace]
    · by_cases h2 : c = '\x7d'
      · simp [h1, h2, replaceChar, expandBrace]
      · simp [h1, h2, replaceChar, expandBrace]

/-- C5: the step joining of the extractor prefixes every step with the
bullet marker "- " and separates consecutive steps with single newlines
in list order (the recursive reference form makes this explicit), the
concrete list a, b yields the two bulleted lines, and assembling the
same structured data twice yields identical output (the embedding is a
pure function of its inputs). -/
theorem steps_joining_deterministic_and_order_preserving :
    (∀ steps : List JVal, joinSteps steps = joinStepsRec steps)
    ∧ joinSteps [JVal.str "a", JVal.str "b"] = "- a\n- b"
    ∧ (∀ (t : String) (resp : ModelResponse),
        extract_recipe_info t resp = extract_recipe_info t resp) :=
  ⟨joinSteps_eq_rec, rfl, fun _ _ => rfl⟩

/-- C7: the brace escaping applied to the transcript before the prompt
is built doubles every open brace and every close brace and leaves all
other characters unchanged, character for character. -/
theorem escape_doubles_every_brace (s : String) :
    escapeBraces s = String.mk (expandAll s.data)
    ∧ buildPrompt s = promptHeader ++ String.mk (expandAll s.data) ++ promptFooter := by
  constructor
  · simp [escapeBraces, escape_core]
  · simp [buildPrompt, escapeBraces, escape_core]

/-- C1: whenever any step inside the try-block of the model-backed
extractor fails (provider failure, non-JSON content, any exception while
processing the parsed data), extract_recipe_info returns the fixed
fallback record: the not-detected ingredients sentinel, the original
combined text verbatim as steps, empty utensils, and the unknown
sentinel for both timings; no failure propagates past the boundary. -/
theorem extract_returns_fallback_on_any_internal_failure
    (t : String) (resp : ModelResponse)
    (h : ∃ e, tryBody t resp = Except.error e) :
    extract_recipe_info t resp =
      { ingredients := "Ingrédients non détectés", steps := t, utensils := "",
        cook_time := JVal.str "inconnu", prep_time := JVal.str "inconnu" } := by
  obtain ⟨e, he⟩ := h
  simp [extract_recipe_info, he, fallbackRecord]

/-- Concrete instantiation of the fallback theorem at a provider
failure. -/
theorem extract_returns_fallback_on_any_internal_failure_check :
    (∃ e, tryBody "abc" (ModelResponse.providerError "boom") = Except.error e)
    ∧ extract_recipe_info "abc" (ModelResponse.providerError "boom") =
      { ingredients := "Ingrédients non détectés", steps := "abc", utensils := "",
        cook_time := JVal.str "inconnu", prep_time := JVal.str "inconnu" } :=
  ⟨⟨"boom", rfl⟩,
   extract_returns_fallback_on_any_internal_failure "abc"
     (ModelResponse.providerError "boom") ⟨"boom", rfl⟩⟩

/-- C2 fails on the code: for the parsed ingredient entry with name salt
and quantity equal to the unknown sentinel, the extractor produces
salt (inconnu), not the bare name the claim requires, because the code
tests only the truthiness of the quantity. -/
theorem unknown_quantity_still_formatted_counterexample :
    (extract_recipe_info "t" (ModelResponse.json (JVal.obj
      [("ingredients", JVal.arr
        [JVal.obj [("nom", JVal.str "salt"), ("quantité", JVal.str "inconnu")]])]))).ingredients
      = "salt (inconnu)"
    ∧ ("salt (inconnu)" : String) ≠ "salt" :=
  ⟨rfl, by decide⟩

/-- C2 amended: on the success path an ingredient entry is formatted as
name (quantity) whenever the quantity field is present and truthy (any
non-empty string, the unknown sentinel included), and as the bare name
exactly when the quantity is absent or empty. -/
theorem ingredient_formatting_includes_truthy_quantity (t name q : String) :
    (extract_recipe_info t (ModelResponse.json (JVal.obj
      [("ingredients", JVal.arr
        [JVal.obj [("nom", JVal.str name), ("quantité", JVal.str q)]])]))).ingredients
      = (if q.isEmpty then name else name ++ " (" ++ q ++ ")")
    ∧ (extract_recipe_info t (ModelResponse.json (JVal.obj
      [("ingredients", JVal.arr [JVal.obj [("nom", JVal.str name)]])]))).ingredients
      = name := by
  constructor
  · by_cases h : q.isEmpty <;>
      simp [extract_recipe_info, tryBody, dictGetD, dictGet, jLookup, pyIter,
            normalizeIngredient, subscript, truthy, joinUtensils, joinSteps, pyStr, h,
            mapExcept, exBind, strItem, buildPrompt,
            String.intercalate, String.intercalate.go]
  · simp [extract_recipe_info, tryBody, dictGetD, dictGet, jLookup, pyIter,
          normalizeIngredient, subscript, truthy, joinUtensils, joinSteps, pyStr,
          mapExcept, exBind, strItem, buildPrompt,
          String.intercalate, String.intercalate.go]

/-- C3 fails on the code: a response that parses as the empty JSON
object is missing every top-level field, yet the extractor returns the
per-field defaults (empty ingredients string), not the fallback record
whose ingredients field is the not-detected sentinel. -/
theorem missing_fields_do_not_trigger_fallback_counterexample :
    (extract_recipe_info "some text" (ModelResponse.json (JVal.obj []))).ingredients = ""
    ∧ (fallbackRecord "some text").ingredients = "Ingrédients non détectés"
    ∧ ("" : String) ≠ "Ingrédients non détectés" :=
  ⟨rfl, rfl, by decide⟩

theorem jLookup_removeField_self_aux (key : String) :
    ∀ (fs : List (String × JVal)) (acc : Option JVal),
      (removeField key fs).foldl (fun acc p => if p.1 = key then some p.2 else acc) acc = acc
  | [], _ => rfl
  | p :: fs, acc => by
    by_cases h : p.1 = key
    · have hb : (p.1 != key) = false := by simp [h]
      simp only [removeField, List.filter, hb]
      exact jLookup_removeField_self_aux key fs acc
    · have hb : (p.1 != key) = true := by simp [bne_iff_ne, h]
      simp only [removeField, List.filter, hb, List.foldl_cons]
      rw [if_neg h]
      exact jLookup_removeField_self_aux key fs acc

theorem jLookup_removeField_self (key : String) (fs : List (String × JVal)) :
    jLookup (removeField key fs) key = none :=
  jLookup_removeField_self_aux key fs none

theorem jLookup_removeField_ne_aux (key k : String) (h : k ≠ key) :
    ∀ (fs : List (String × JVal)) (acc : Option JVal),
      (removeField key fs).foldl (fun acc p => if p.1 = k then some p.2 else acc) acc
        = fs.foldl (fun acc p => if p.1 = k then some p.2 else acc) acc
  | [], _ => rfl
  | p :: fs, acc => by
    by_cases hp : p.1 = key
    · have hpk : ¬ p.1 = k := by rw [hp]; exact fun hkk => h hkk.symm
      have hb : (p.1 != key) = false := by simp [hp]
      simp only [removeField, List.filter, hb, List.foldl_cons, if_neg hpk]
      exact jLookup_removeField_ne_aux key k h fs acc
    · have hb : (p.1 != key) = true := by simp [bne_iff_ne, hp]
      simp only [removeField, List.filter, hb, List.foldl_cons]
      exact jLookup_removeField_ne_aux key k h fs _

theorem jLookup_removeField_ne (key k : String) (h : k ≠ key) (fs : List (String × JVal)) :
    jLookup (removeField key fs) k = jLookup fs k :=
  jLookup_removeField_ne_aux key k h fs none

theorem tryBody_obj_inversion (t : String) (fs : List (String × JVal)) (r : RecipeInfo)
    (h : tryBody t (ModelResponse.json (JVal.obj fs)) = Except.ok r) :
    ∃ ingItems ingredients stepItems utensilItems utensils,
      pyIter ((jLookup fs "ingredients").getD (JVal.arr [])) = Except.ok ingItems
      ∧ mapExcept normalizeIngredient ingItems = Except.ok ingredients
      ∧ pyIter ((jLookup fs "steps").getD (JVal.arr [])) = Except.ok stepItems
      ∧ pyIter ((jLookup fs "utensils").getD (JVal.arr [])) = Except.ok utensilItems
      ∧ joinUtensils utensilItems = Except.ok utensils
      ∧ r = { ingredients := String.intercalate "\n" ingredients
              steps := joinSteps stepItems
              utensils := utensils
              cook_time := (jLookup fs "cook_time").getD (JVal.str "inconnu")
              prep_time := (jLookup fs "prep_time").getD (JVal.str "inconnu") } := by
  simp only [tryBody, exBind, dictGetD, buildPrompt] at h
  cases h1 : pyIter ((jLookup fs "ingredients").getD (JVal.arr [])) with
  | error e => simp only [h1] at h; exact Except.noConfusion h
  | ok ingItems =>
    simp only [h1] at h
    cases h2 : mapExcept normalizeIngredient ingItems with
    | error e => simp only [h2] at h; exact Except.noConfusion h
    | ok ingredients =>
      simp only [h2] at h
      cases h3 : pyIter ((jLookup fs "steps").getD (JVal.arr [])) with
      | error e => simp only [h3] at h; exact Except.noConfusion h
      | ok stepItems =>
        simp only [h3] at h
        cases h4 : pyIter ((jLookup fs "utensils").getD (JVal.arr [])) with
        | error e => simp only [h4] at h; exact Except.noConfusion h
        | ok utensilItems =>
          simp only [h4] at h
          cases h5 : joinUtensils utensilItems with
          | error e => simp only [h5] at h; exact Except.noConfusion h
          | ok utensils =>
            simp only [h5, Except.ok.injEq] at h
            exact ⟨ingItems, ingredients, stepItems, utensilItems, utensils,
                   rfl, h2, rfl, rfl, h5, h.symm⟩

theorem pyIter_arr (xs : List JVal) : pyIter (JVal.arr xs) = Except.ok xs := rfl

theorem mapExcept_nil (f : JVal → Except String String) : mapExcept f [] = Except.ok [] := rfl

theorem joinUtensils_nil : joinUtensils [] = Except.ok "" := rfl

theorem joinSteps_nil : joinSteps [] = "" := rfl

theorem str_intercalate_nil (s : String) : String.intercalate s [] = "" := rfl

/-- C3 amended: when the model response parses as a JSON object, each
missing top-level field is filled with its per-field default while the
present fields are processed normally: in every success record a missing
field carries its default (empty join strings for ingredients, steps and
utensils, the unknown sentinel for the timings), and removing any one
top-level field from a successfully-processed response still yields a
success record — partially filled, with just that field defaulted — not
the fallback. The fixed fallback record is returned exactly when the
try-block raises: provider failure, a non-JSON response, or an exception
while processing the parsed data. -/
theorem missing_fields_partial_defaults :
    (∀ (t : String) (resp : ModelResponse),
      (∃ r, tryBody t resp = Except.ok r ∧ extract_recipe_info t resp = r)
      ∨ ((∃ e, tryBody t resp = Except.error e)
          ∧ extract_recipe_info t resp = fallbackRecord t))
    ∧ (∀ (t : String) (fs : List (String × JVal)) (r : RecipeInfo),
        tryBody t (ModelResponse.json (JVal.obj fs)) = Except.ok r →
        (jLookup fs "ingredients" = none → r.ingredients = "")
        ∧ (jLookup fs "steps" = none → r.steps = "")
        ∧ (jLookup fs "utensils" = none → r.utensils = "")
        ∧ (jLookup fs "cook_time" = none → r.cook_time = JVal.str "inconnu")
        ∧ (jLookup fs "prep_time" = none → r.prep_time = JVal.str "inconnu"))
    ∧ (∀ (t : String) (fs : List (String × JVal)) (r : RecipeInfo),
        tryBody t (ModelResponse.json (JVal.obj fs)) = Except.ok r →
        tryBody t (ModelResponse.json (JVal.obj (removeField "ingredients" fs)))
          = Except.ok { r with ingredients := "" }
        ∧ tryBody t (ModelResponse.json (JVal.obj (removeField "steps" fs)))
          = Except.ok { r with steps := "" }
        ∧ tryBody t (ModelResponse.json (JVal.obj (removeField "utensils" fs)))
          = Except.ok { r with utensils := "" }
        ∧ tryBody t (ModelResponse.json (JVal.obj (removeField "cook_time" fs)))
          = Except.ok { r with cook_time := JVal.str "inconnu" }
        ∧ tryBody t (ModelResponse.json (JVal.obj (removeField "prep_time" fs)))
          = Except.ok { r with prep_time := JVal.str "inconnu" }) := by
  refine ⟨?_, ?_, ?_⟩
  · intro t resp
    cases h : tryBody t resp with
    | ok r => exact Or.inl ⟨r, rfl, by simp [extract_recipe_info, h]⟩
    | error e => exact Or.inr ⟨⟨e, rfl⟩, by simp [extract_recipe_info, h]⟩
  · intro t fs r h
    obtain ⟨ingItems, ingredients, stepItems, utensilItems, utensils,
            h1, h2, h3, h4, h5, hr⟩ := tryBody_obj_inversion t fs r h
    subst hr
    refine ⟨?_, ?_, ?_, ?_, ?_⟩
    · intro hn
      simp only [hn, Option.getD_none, pyIter, Except.ok.injEq] at h1
      subst h1
      simp only [mapExcept, Except.ok.injEq] at h2
      subst h2
      simp [String.intercalate]
    · intro hn
      simp only [hn, Option.getD_none, pyIter, Except.ok.injEq] at h3
      subst h3
      simp [joinSteps, String.intercalate]
    · intro hn
      simp only [hn, Option.getD_none, pyIter, Except.ok.injEq] at h4
      subst h4
      simp only [joinUtensils, mapExcept, exBind, Except.ok.injEq] at h5
      subst h5
      simp [String.intercalate]
    · intro hn
      simp [hn]
    · intro hn
      simp [hn]
  · intro t fs r h
    obtain ⟨ingItems, ingredients, stepItems, utensilItems, utensils,
            h1, h2, h3, h4, h5, hr⟩ := tryBody_obj_inversion t fs r h
    subst hr
    refine ⟨?_, ?_, ?_, ?_, ?_⟩
    · have eSelf := jLookup_removeField_self "ingredients" fs
      have e2 := jLookup_removeField_ne "ingredients" "steps" (by decide) fs
      have e3 := jLookup_removeField_ne "ingredients" "utensils" (by decide) fs
      have e4 := jLookup_removeField_ne "ingredients" "cook_time" (by decide) fs
      have e5 := jLookup_removeField_ne "ingredients" "prep_time" (by decide) fs
      simp only [tryBody, exBind, dictGetD, buildPrompt, eSelf, e2, e3, e4, e5,
            Option.getD_none, pyIter_arr, mapExcept_nil, h3, h4, h5, str_intercalate_nil]
    · have eSelf := jLookup_removeField_self "steps" fs
      have e1 := jLookup_removeField_ne "steps" "ingredients" (by decide) fs
      have e3 := jLookup_removeField_ne "steps" "utensils" (by decide) fs
      have e4 := jLookup_removeField_ne "steps" "cook_time" (by decide) fs
      have e5 := jLookup_removeField_ne "steps" "prep_time" (by decide) fs
      simp only [tryBody, exBind, dictGetD, buildPrompt, eSelf, e1, e3, e4, e5,
            Option.getD_none, pyIter_arr, h1, h2, h4, h5, joinSteps_nil]
    · have eSelf := jLookup_removeField_self "utensils" fs
      have e1 := jLookup_removeField_ne "utensils" "ingredients" (by decide) fs
      have e2 := jLookup_removeField_ne "utensils" "steps" (by decide) fs
      have e4 := jLookup_removeField_ne "utensils" "cook_time" (by decide) fs
      have e5 := jLookup_removeField_ne "utensils" "prep_time" (by decide) fs
      simp only [tryBody, exBind, dictGetD, buildPrompt, eSelf, e1, e2, e4, e5,
            Option.getD_none, pyIter_arr, h1, h2, h3, joinUtensils_nil]
    · have eSelf := jLookup_removeField_self "cook_time" fs
      have e1 := jLookup_removeField_ne "cook_time" "ingredients" (by decide) fs
      have e2 := jLookup_removeField_ne "cook_time" "steps" (by decide) fs
      have e3 := jLookup_removeField_ne "cook_time" "utensils" (by decide) fs
      have e5 := jLookup_removeField_ne "cook_time" "prep_time" (by decide) fs
      simp [tryBody, exBind, dictGetD, buildPrompt, eSelf, e1, e2, e3, e5,
            Option.getD_none, h1, h2, h3, h4, h5]
    · have eSelf := jLookup_removeField_self "prep_time" fs
      have e1 := jLookup_removeField_ne "prep_time" "ingredients" (by decide) fs
      have e2 := jLookup_removeField_ne "prep_time" "steps" (by decide) fs
      have e3 := jLookup_removeField_ne "prep_time" "utensils" (by decide) fs
      have e4 := jLookup_removeField_ne "prep_time" "cook_time" (by decide) fs
      simp [tryBody, exBind, dictGetD, buildPrompt, eSelf, e1, e2, e3, e4,
            Option.getD_none, h1, h2, h3, h4, h5]

/-- Concrete instantiation of the partial-defaults theorem: a response
carrying only steps and cook_time succeeds with the other three fields
defaulted, and removing its steps field still succeeds with steps
defaulted to the empty string. -/
theorem missing_fields_partial_defaults_check :
    tryBody "t" (ModelResponse.json (JVal.obj
      [("steps", JVal.arr [JVal.str "mix"]), ("cook_time", JVal.str "10 min")]))
      = Except.ok { ingredients := "", steps := "- mix", utensils := "",
                    cook_time := JVal.str "10 min", prep_time := JVal.str "inconnu" }
    ∧ tryBody "t" (ModelResponse.json (JVal.obj (removeField "steps"
        [("steps", JVal.arr [JVal.str "mix"]), ("cook_time", JVal.str "10 min")])))
      = Except.ok { ingredients := "", steps := "", utensils := "",
                    cook_time := JVal.str "10 min", prep_time := JVal.str "inconnu" } :=
  ⟨rfl,
   (missing_fields_partial_defaults.2.2 "t"
      [("steps", JVal.arr [JVal.str "mix"]), ("cook_time", JVal.str "10 min")]
      { ingredients := "", steps := "- mix", utensils := "",
        cook_time := JVal.str "10 min", prep_time := JVal.str "inconnu" } rfl).2.1⟩

/-- C4 fails on the code: a success-status response whose JSON object
lacks the text field does not raise; the transcriber silently returns
the empty string via the defaulted get. -/
theorem transcribe_missing_text_counterexample :
    transcribe_with_openai_whisper
      { status := 200, body := "\x7b\x7d", jsonVal := some (JVal.obj []) }
      = Except.ok (JVal.str "") := rfl

/-- C4 amended: the transcriber fails exactly when the provider status
is not 200, when the response body is not valid JSON, or when the parsed
JSON is not an object; a JSON object without a text field yields the
empty string instead of failing. On a non-success status the failure
detail carries the status and the response body verbatim, and the
function issues the one request with no retry. -/
theorem transcribe_failure_characterization (resp : HttpResponse) :
    (resp.status ≠ 200 →
      transcribe_with_openai_whisper resp =
        Except.error ("OpenAI Whisper API error " ++ toString resp.status ++ ": " ++ resp.body))
    ∧ ((∃ e, transcribe_with_openai_whisper resp = Except.error e)
        ↔ (resp.status ≠ 200 ∨ jsonIsDict resp.jsonVal = false)) := by
  refine ⟨fun h => by simp [transcribe_with_openai_whisper, h], ?_⟩
  by_cases h : resp.status = 200
  · cases hj : resp.jsonVal with
    | none => simp [transcribe_with_openai_whisper, h, hj, jsonIsDict]
    | some v =>
      cases v <;>
        simp [transcribe_with_openai_whisper, h, hj, jsonIsDict, dictGetD]
  · simp [transcribe_with_openai_whisper, h, jsonIsDict]

/-- Concrete instantiations of the transcriber failure
characterization: a 500 with its body in the detail, and a non-object
JSON body failing. -/
theorem transcribe_failure_characterization_check :
    transcribe_with_openai_whisper { status := 500, body := "oops", jsonVal := none }
      = Except.error ("OpenAI Whisper API error " ++ toString (500 : Nat) ++ ": " ++ "oops")
    ∧ ((∃ e, transcribe_with_openai_whisper
          { status := 200, body := "[]", jsonVal := some (JVal.arr []) } = Except.error e)
        ↔ ((200 : Nat) ≠ 200 ∨ jsonIsDict (some (JVal.arr [])) = false)) :=
  ⟨(transcribe_failure_characterization
      { status := 500, body := "oops", jsonVal := none }).1 (by decide),
   (transcribe_failure_characterization
      { status := 200, body := "[]", jsonVal := some (JVal.arr []) }).2⟩

/-- C6: when neither the ingredients marker nor either of the
steps/preparation markers occurs in the lowered text, the heuristic
extractor returns the no-ingredients sentinel, the entire original text
unmodified as steps, empty utensils and the unknown cook time. -/
theorem heuristic_no_markers_returns_whole_text (text : String)
    (h1 : findMarker "ingredients" (text.data.map Char.toLower) = none)
    (h2 : findMarker "steps" (text.data.map Char.toLower) = none)
    (h3 : findMarker "preparation" (text.data.map Char.toLower) = none) :
    heuristic_extract text =
      { ingredients := "no ingredients detected", steps := text,
        utensils := [], cook_time := "unknown" } := by
  simp [heuristic_extract, h1, h2, h3]

/-- Concrete instantiation of the marker-free heuristic theorem. -/
theorem heuristic_no_markers_returns_whole_text_check :
    findMarker "ingredients" ("hello".data.map Char.toLower) = none
    ∧ heuristic_extract "hello" =
      { ingredients := "no ingredients detected", steps := "hello",
        utensils := [], cook_time := "unknown" } :=
  ⟨by decide,
   heuristic_no_markers_returns_whole_text "hello" (by decide) (by decide) (by decide)⟩

/-- C8: the media fetcher defaults a missing provider title to the
unknown-title sentinel and a missing description to the empty string. -/
theorem media_metadata_defaults (sanitize : String → String) (info : YdlInfo) (dir : String) :
    (info.title = none →
      (download_audio_with_ytdlp sanitize info dir).2.1 = "Titre inconnu")
    ∧ (info.description = none →
      (download_audio_with_ytdlp sanitize info dir).2.2 = "") := by
  constructor <;> intro h <;> simp [download_audio_with_ytdlp, h]

/-- Concrete instantiation of the metadata defaulting theorem. -/
theorem media_metadata_defaults_check :
    (download_audio_with_ytdlp id { title := none, description := none } "d").2.1
      = "Titre inconnu"
    ∧ (download_audio_with_ytdlp id { title := none, description := none } "d").2.2 = "" :=
  ⟨(media_metadata_defaults id { title := none, description := none } "d").1 rfl,
   (media_metadata_defaults id { title := none, description := none } "d").2 rfl⟩

theorem listIsPrefixOf_self_append (l m : List Char) : l.isPrefixOf (l ++ m) = true := by
  induction l with
  | nil => cases m <;> rfl
  | cons a as ih => simp [List.isPrefixOf, ih]

theorem isUnder_self (d : String) : isUnder d d = true := by
  have h := listIsPrefixOf_self_append d.data []
  simp only [List.append_nil] at h
  simp only [isUnder]
  exact h

theorem isUnder_append (d s : String) : isUnder d (d ++ s) = true := by
  simp [isUnder, String.data_append, listIsPrefixOf_self_append]

/-- C9: an add_recipe invocation leaves the filesystem exactly as it
found it on every exit path — bad request, fetch failure, transcription
failure, or success — so the scratch directory and everything written
under it are absent afterwards, and no path outside it is touched. -/
theorem scratch_dir_absent_after_run (env : PipelineEnv) (url tmpdir : String)
    (fs : List String) (h : ∀ p ∈ fs, isUnder tmpdir p = false) :
    (add_recipe_post env url tmpdir fs).2 = fs
    ∧ ∀ p ∈ (add_recipe_post env url tmpdir fs).2, isUnder tmpdir p = false := by
  have hfs : fs.filter (fun p => !(isUnder tmpdir p)) = fs :=
    List.filter_eq_self.mpr (fun p hp => by simp [h p hp])
  have hmain : (add_recipe_post env url tmpdir fs).2 = fs := by
    by_cases hu : url.isEmpty
    · simp [add_recipe_post, hu]
    · cases hf : env.fetchOutcome with
      | error e =>
        simp [add_recipe_post, hu, pipelineBody, hf, List.filter, isUnder_self, hfs]
      | ok info =>
        cases ht : transcribe_with_openai_whisper env.whisperResponse with
        | error e =>
          simp [add_recipe_post, hu, pipelineBody, hf, ht, download_audio_with_ytdlp,
                List.filter, isUnder_self, isUnder_append, hfs, String.append_assoc]
        | ok tv =>
          simp [add_recipe_post, hu, pipelineBody, hf, ht, download_audio_with_ytdlp,
                List.filter, isUnder_self, isUnder_append, hfs, String.append_assoc]
  refine ⟨hmain, ?_⟩
  rw [hmain]
  exact h

/-- Concrete instantiation of the scratch-directory theorem on a run
whose extraction falls back. -/
theorem scratch_dir_absent_after_run_check :
    (add_recipe_post
      { sanitize := id
        fetchOutcome := Except.ok { title := some "T", description := some "d" }
        whisperResponse := { status := 200, body := "", jsonVal := some (JVal.obj [("text", JVal.str "hi")]) }
        chatOutcome := ModelResponse.providerError "down" }
      "u" "/tmp/scratch" ["keep"]).2 = ["keep"] :=
  (scratch_dir_absent_after_run
    { sanitize := id
      fetchOutcome := Except.ok { title := some "T", description := some "d" }
      whisperResponse := { status := 200, body := "", jsonVal := some (JVal.obj [("text", JVal.str "hi")]) }
      chatOutcome := ModelResponse.providerError "down" }
    "u" "/tmp/scratch" ["keep"] (by decide)).1

/-- C10: the transcriber result, and in particular any surfaced failure
message, is a function of the provider response alone — two runs with
different credentials observing the same response surface identical
results, so the bearer credential cannot appear through the
transcriber — and a non-success failure carries exactly the status and
the response body as its diagnostic context. -/
theorem transcriber_failure_independent_of_credential :
    (∀ (k1 k2 path1 path2 : String) (p1 p2 : WhisperRequest → HttpResponse),
      p1 (buildWhisperRequest k1 path1) = p2 (buildWhisperRequest k2 path2) →
      transcribeCall k1 path1 p1 = transcribeCall k2 path2 p2)
    ∧ (∀ resp : HttpResponse, resp.status ≠ 200 →
      transcribe_with_openai_whisper resp =
        Except.error ("OpenAI Whisper API error " ++ toString resp.status ++ ": " ++ resp.body)) := by
  constructor
  · intro k1 k2 path1 path2 p1 p2 h
    simp [transcribeCall, h]
  · intro resp h
    simp [transcribe_with_openai_whisper, h]

/-- Concrete instantiation of the credential-independence theorem: two
different keys, same provider response, identical surfaced failure. -/
theorem transcriber_failure_independent_of_credential_check :
    transcribeCall "key-one" "a.mp3" (fun _ => { status := 404, body := "nope", jsonVal := none })
      = transcribeCall "key-two" "a.mp3" (fun _ => { status := 404, body := "nope", jsonVal := none })
    ∧ transcribe_with_openai_whisper { status := 404, body := "nope", jsonVal := none }
      = Except.error ("OpenAI Whisper API error " ++ toString (404 : Nat) ++ ": " ++ "nope") :=
  ⟨transcriber_failure_independent_of_credential.1 "key-one" "key-two" "a.mp3" "a.mp3" _ _ rfl,
   transcriber_failure_independent_of_credential.2
     { status := 404, body := "nope", jsonVal := none } (by decide)⟩

end BibliRecipe
